import Mathlib

/-!
# Verification of the Barikoi react-native map example's computational core

Shallow embedding of the repository's deterministic units:

* `isWithinBangladeshBounds`, `calculateDistance`, `createCirclePolygon`
  from the map-utilities module (documented in
  `docs/DRAGGABLE_MARKER_SCREEN.md`; `createCirclePoints` in
  `components/screens/GeometryScreen.tsx` is the same computation), and
* the style-acquisition pipeline: `fetchBarikoiMapStyle` /
  `useBarikoiMapStyle` (the hook variant, which checks `response.ok`),
  and the screens' inline `fetch(...).then(...).catch(console.error)`
  effect (which does not).

JavaScript floating point is modelled by exact real arithmetic (`ℝ`);
JSON documents by an inductive `JsonValue` with rational numbers.
The network is modelled by its observable outcome: either the fetch
promise rejects with a transport error, or a response arrives with a
status code and a body whose `response.json()` step either yields a
parsed document or rejects with a parse-error message.
-/

open Real

/-- A geographic coordinate, stored as `[longitude, latitude]` in the source. -/
structure Coordinate where
  lng : ℝ
  lat : ℝ

/-- The `bounds` rectangle from `isWithinBangladeshBounds`. -/
structure BoundingBox where
  north : ℝ
  south : ℝ
  east : ℝ
  west : ℝ

/-- The fixed approximate Bangladesh bounds from the source. -/
noncomputable def bangladeshBounds : BoundingBox :=
  { north := 26.8, south := 20.3, east := 92.8, west := 88.0 }

/-- `isWithinBangladeshBounds(coordinates)`: returns
`lat >= bounds.south && lat <= bounds.north && lng >= bounds.west && lng <= bounds.east`. -/
def isWithinBangladeshBounds (c : Coordinate) : Prop :=
  c.lat ≥ bangladeshBounds.south ∧ c.lat ≤ bangladeshBounds.north ∧
    c.lng ≥ bangladeshBounds.west ∧ c.lng ≤ bangladeshBounds.east

/-- JavaScript `Math.atan2(y, x)` on real inputs. -/
noncomputable def atan2 (y x : ℝ) : ℝ :=
  if 0 < x then Real.arctan (y / x)
  else if x < 0 then
    (if 0 ≤ y then Real.arctan (y / x) + Real.pi else Real.arctan (y / x) - Real.pi)
  else
    (if 0 < y then Real.pi / 2 else if y < 0 then -(Real.pi / 2) else 0)

/-- The intermediate `a` of `calculateDistance`:
`sin(dLat/2)*sin(dLat/2) + cos(lat1*π/180)*cos(lat2*π/180)*sin(dLng/2)*sin(dLng/2)`
with `dLat = (lat2-lat1)*π/180` and `dLng = (lng2-lng1)*π/180`. -/
noncomputable def haversineA (c1 c2 : Coordinate) : ℝ :=
  Real.sin ((c2.lat - c1.lat) * Real.pi / 180 / 2) *
      Real.sin ((c2.lat - c1.lat) * Real.pi / 180 / 2) +
    Real.cos (c1.lat * Real.pi / 180) * Real.cos (c2.lat * Real.pi / 180) *
      Real.sin ((c2.lng - c1.lng) * Real.pi / 180 / 2) *
      Real.sin ((c2.lng - c1.lng) * Real.pi / 180 / 2)

/-- `calculateDistance(coord1, coord2)`: `R * c` with `R = 6371` and
`c = 2 * Math.atan2(Math.sqrt(a), Math.sqrt(1 - a))`. -/
noncomputable def calculateDistance (c1 c2 : Coordinate) : ℝ :=
  6371 * (2 * atan2 (Real.sqrt (haversineA c1 c2)) (Real.sqrt (1 - haversineA c1 c2)))

/-- The spec's `radians(d)` conversion: `d * (π / 180)`. -/
noncomputable def radians (d : ℝ) : ℝ := d * (Real.pi / 180)

/-- The claim's reference haversine formula, stated from the spec's words:
`dLat = radians(b.lat - a.lat)`, `dLng = radians(b.lng - a.lng)`,
`h = sin²(dLat/2) + cos(radians(a.lat))·cos(radians(b.lat))·sin²(dLng/2)`,
result `2 · 6371 · atan2(√h, √(1-h))`. To be compared with
`calculateDistance`. -/
noncomputable def specHaversineKm (a b : Coordinate) : ℝ :=
  2 * 6371 * atan2
    (Real.sqrt (Real.sin (radians (b.lat - a.lat) / 2) ^ 2 +
      Real.cos (radians a.lat) * Real.cos (radians b.lat) *
        Real.sin (radians (b.lng - a.lng) / 2) ^ 2))
    (Real.sqrt (1 - (Real.sin (radians (b.lat - a.lat) / 2) ^ 2 +
      Real.cos (radians a.lat) * Real.cos (radians b.lat) *
        Real.sin (radians (b.lng - a.lng) / 2) ^ 2)))

/-- `createCirclePolygon(center, radiusInKm, points)` (identically
`createCirclePoints` in `GeometryScreen.tsx`): for `i` in `0..points-1` push
`[lng + cos((i*2π)/points)*r/111.32, lat + sin((i*2π)/points)*r/(111.32*cos(lat*(π/180)))]`,
then push a copy of the first generated point to close the ring. -/
noncomputable def createCirclePolygon (center : Coordinate) (radiusInKm : ℝ)
    (points : ℕ) : List Coordinate :=
  let coords := (List.range points).map (fun (i : ℕ) =>
    { lng := center.lng + Real.cos (((i : ℝ) * 2 * Real.pi) / (points : ℝ)) * radiusInKm / 111.32,
      lat := center.lat + Real.sin (((i : ℝ) * 2 * Real.pi) / (points : ℝ)) * radiusInKm /
          (111.32 * Real.cos (center.lat * (Real.pi / 180))) : Coordinate })
  coords ++ coords.take 1

/-- The spec's reference algorithm for the circle ring, point `i`:
`(center.lng + cos(2πi/segments)*radiusKm/111.32,
  center.lat + sin(2πi/segments)*radiusKm/(111.32*cos(radians(center.lat))))`.
Stated from the spec's words, to be compared with `createCirclePolygon`. -/
noncomputable def specCirclePoint (center : Coordinate) (radiusKm : ℝ)
    (segments : ℕ) (i : ℕ) : Coordinate :=
  { lng := center.lng + Real.cos (2 * Real.pi * (i : ℝ) / (segments : ℝ)) * radiusKm / 111.32,
    lat := center.lat + Real.sin (2 * Real.pi * (i : ℝ) / (segments : ℝ)) * radiusKm /
        (111.32 * Real.cos (center.lat * (Real.pi / 180))) }

/-! ## JSON documents and the style-acquisition pipeline -/

/-- A parsed JSON document (`response.json()` result). Numbers are modelled
exactly by rationals. -/
inductive JsonValue where
  | null : JsonValue
  | bool (b : Bool) : JsonValue
  | num (q : ℚ) : JsonValue
  | str (s : String) : JsonValue
  | arr (elems : List JsonValue) : JsonValue
  | obj (fields : List (String × JsonValue)) : JsonValue

/-- JavaScript truthiness of a JSON value (`if (data.sprite)`):
`null`, `false`, `0` and `""` are falsy, everything else truthy. -/
def JsonValue.truthy : JsonValue → Bool
  | .null => false
  | .bool b => b
  | .num q => decide (q ≠ 0)
  | .str s => decide (s ≠ "")
  | .arr _ => true
  | .obj _ => true

/-- `data.sprite`: property lookup. On a non-object (other than `null`,
which throws before lookup) the access yields `undefined`, modelled `none`. -/
def JsonValue.get (j : JsonValue) (k : String) : Option JsonValue :=
  match j with
  | .obj fields => fields.lookup k
  | _ => none

/-- `delete data.sprite`: removes the key from an object, no-op otherwise. -/
def JsonValue.deleteKey (j : JsonValue) (k : String) : JsonValue :=
  match j with
  | .obj fields => .obj (fields.filter (fun f => f.1 ≠ k))
  | _ => j

/-- Whether `data` is the JSON literal `null` (on which `data.sprite` throws
a `TypeError` in JavaScript instead of yielding `undefined`). -/
def JsonValue.isNull : JsonValue → Bool
  | .null => true
  | _ => false

/-- The truthiness of `data.sprite` (`false` when the key is absent,
since absent-property access yields falsy `undefined`). -/
def spriteTruthy (d : JsonValue) : Bool :=
  match d.get "sprite" with
  | some v => v.truthy
  | none => false

/-- The `if (data.sprite) { delete data.sprite; } return data` step shared by
`fetchBarikoiMapStyle` and every screen's inline effect. Accessing `.sprite`
on the JSON document `null` throws, which the surrounding try/catch turns
into a failure. -/
def sanitizeStyle (d : JsonValue) : Except String JsonValue :=
  if d.isNull then
    .error "TypeError: Cannot read properties of null (reading 'sprite')"
  else
    .ok (if spriteTruthy d then d.deleteKey "sprite" else d)

/-- The observable outcome of the `fetch` call: either the promise rejects
with a transport-error message, or a response arrives carrying its HTTP
status and the result of the `response.json()` step (`Except.error` when the
body is not valid JSON, with the runtime's parse-error message). -/
inductive FetchOutcome where
  | transportError (msg : String) : FetchOutcome
  | response (status : ℕ) (body : Except String JsonValue) : FetchOutcome

/-- `response.ok`: status in the inclusive range 200–299. -/
def statusOk (status : ℕ) : Bool :=
  decide (200 ≤ status) && decide (status ≤ 299)

/-- `fetchBarikoiMapStyle`: throws the transport error onward; throws
`` `HTTP error! status: ${response.status}` `` when `!response.ok`; otherwise
parses the body (a rejection of `response.json()` propagates) and returns the
sanitized document. -/
def fetchBarikoiMapStyle (o : FetchOutcome) : Except String JsonValue :=
  match o with
  | .transportError msg => .error msg
  | .response status body =>
    if statusOk status then
      match body with
      | .error parseMsg => .error parseMsg
      | .ok data => sanitizeStyle data
    else
      .error ("HTTP error! status: " ++ toString status)

/-- The tri-state result exposed by the style-loading hook once its fetch
has settled. -/
inductive StyleLoadState where
  | loading : StyleLoadState
  | ready (doc : JsonValue) : StyleLoadState
  | failed (msg : String) : StyleLoadState

/-- The settled state of one `useBarikoiMapStyle` invocation: the hook awaits
`fetchBarikoiMapStyle`, stores the document on success and the error message
on failure (every error thrown by the pipeline is an `Error`, so the hook's
`err instanceof Error ? err.message : ...` branch surfaces the message). -/
def useBarikoiMapStyleSettled (o : FetchOutcome) : StyleLoadState :=
  match fetchBarikoiMapStyle o with
  | .ok d => .ready d
  | .error m => .failed m

/-- The settled `styleJson` state of a screen's inline effect
(`HomeScreen` and the other screens):
`fetch(url).then(r => r.json()).then(data => { if (data.sprite) delete data.sprite; setStyleJson(data); }).catch(console.error)`.
`response.ok` is never checked, and the `.catch` only logs, leaving
`styleJson` at its initial `null`. -/
def homeScreenStyleJson (o : FetchOutcome) : Option JsonValue :=
  match o with
  | .transportError _ => none
  | .response _ body =>
    match body with
    | .error _ => none
    | .ok data =>
      match sanitizeStyle data with
      | .error _ => none
      | .ok d => some d

/-- The `{styleJson, loading, error}` triple held by `useBarikoiMapStyle`. -/
structure HookState where
  styleJson : Option JsonValue
  loading : Bool
  error : Option String

/-- The sequence of states of one `useBarikoiMapStyle` invocation, from the
initial `useState` values through settlement of the fetch: initial
`{null, true, null}`; `setLoading(true)`; `setError(null)`; then on success
`setStyleJson(style)`, on failure `setError(message)`; finally
`setLoading(false)`. -/
def hookTrace (o : FetchOutcome) : List HookState :=
  match fetchBarikoiMapStyle o with
  | .ok d =>
      [⟨none, true, none⟩, ⟨none, true, none⟩, ⟨none, true, none⟩,
        ⟨some d, true, none⟩, ⟨some d, false, none⟩]
  | .error m =>
      [⟨none, true, none⟩, ⟨none, true, none⟩, ⟨none, true, none⟩,
        ⟨none, true, some m⟩, ⟨none, false, some m⟩]

/-- Whether a screen's inline effect ends with `styleJson` still `null`:
exactly the outcomes swallowed by its `.catch` (transport error, JSON parse
rejection, or the `TypeError` thrown by `.sprite` access on a `null` body). -/
def screenFetchSwallowed (o : FetchOutcome) : Bool :=
  match o with
  | .transportError _ => true
  | .response _ (.error _) => true
  | .response _ (.ok data) => data.isNull

/-! ## Helper lemmas -/

/-- The ring returned by `createCirclePolygon` has `points + 1` entries
whenever at least one point is generated. -/
lemma createCirclePolygon_length (center : Coordinate) (radiusInKm : ℝ) (n : ℕ)
    (h : 1 ≤ n) : (createCirclePolygon center radiusInKm n).length = n + 1 := by
  simp only [createCirclePolygon, List.length_append, List.length_take, List.length_map,
    List.length_range]
  omega

/-- Looking up a key after filtering it out of an association list yields
nothing. -/
lemma lookup_filter_self (k : String) (fs : List (String × JsonValue)) :
    List.lookup k (fs.filter (fun f => f.1 ≠ k)) = none := by
  induction fs with
  | nil => rfl
  | cons f fs ih =>
    obtain ⟨fk, fv⟩ := f
    by_cases hf : fk = k
    · rw [List.filter_cons, if_neg (by simp [hf])]
      exact ih
    · rw [List.filter_cons, if_pos (by simp [hf])]
      simp only [List.lookup]
      rw [show (k == fk) = false from by simp [Ne.symm hf]]
      exact ih

/-- Filtering one key out of an association list leaves every other lookup
unchanged. -/
lemma lookup_filter_other (k k' : String) (hk : k' ≠ k)
    (fs : List (String × JsonValue)) :
    List.lookup k' (fs.filter (fun f => f.1 ≠ k)) = List.lookup k' fs := by
  induction fs with
  | nil => rfl
  | cons f fs ih =>
    obtain ⟨fk, fv⟩ := f
    by_cases hf : fk = k
    · rw [List.filter_cons, if_neg (by simp [hf])]
      simp only [List.lookup]
      rw [show (k' == fk) = false from by simp [hf, hk]]
      exact ih
    · rw [List.filter_cons, if_pos (by simp [hf])]
      by_cases hf' : k' = fk
      · simp [List.lookup, hf']
      · simp only [List.lookup]
        rw [show (k' == fk) = false from by simp [hf']]
        exact ih

/-! ## Claim theorems -/

/-- C9: the bounds validator returns true iff
`20.3 ≤ lat ≤ 26.8` and `88.0 ≤ lng ≤ 92.8`; the box is the fixed
Bangladesh extent, and points on each of the four boundary lines are
inside. (The model is a pure function, so freedom from side effects is
inherent.) -/
theorem isWithinBangladeshBounds_spec :
    (∀ c : Coordinate, isWithinBangladeshBounds c ↔
        (20.3 ≤ c.lat ∧ c.lat ≤ 26.8 ∧ 88.0 ≤ c.lng ∧ c.lng ≤ 92.8)) ∧
    bangladeshBounds.north = 26.8 ∧ bangladeshBounds.south = 20.3 ∧
    bangladeshBounds.east = 92.8 ∧ bangladeshBounds.west = 88.0 ∧
    isWithinBangladeshBounds ⟨90.4, 26.8⟩ ∧ isWithinBangladeshBounds ⟨90.4, 20.3⟩ ∧
    isWithinBangladeshBounds ⟨88.0, 23.8⟩ ∧ isWithinBangladeshBounds ⟨92.8, 23.8⟩ := by
  refine ⟨fun c => ?_, rfl, rfl, rfl, rfl, ?_, ?_, ?_, ?_⟩ <;>
    simp [isWithinBangladeshBounds, bangladeshBounds, ge_iff_le] <;>
    norm_num

/-- C10: in every state reachable during one `useBarikoiMapStyle`
invocation, from the initial `{null, true, null}` through settlement,
`styleJson` and `error` are never simultaneously non-null. -/
theorem hookTrace_ready_failed_exclusive (o : FetchOutcome) :
    (hookTrace o).all (fun s => !(s.styleJson.isSome && s.error.isSome)) = true := by
  unfold hookTrace
  cases fetchBarikoiMapStyle o <;> simp

/-- C3 counterexample: a screen's inline style fetch, settled with a
transport error, leaves its exposed `styleJson` at the initial `null` —
the value that renders the loading/blank view — and produces neither a
`Ready` document nor any `Failed` message (the `.catch` only logs). -/
theorem homeScreen_transport_error_stays_null :
    homeScreenStyleJson (FetchOutcome.transportError "Network request failed") = none := rfl

/-- C3 (amended): the hook variant `useBarikoiMapStyle` always leaves
`Loading` and settles to exactly one of `Ready`/`Failed` for every fetch
outcome; the screens' inline fetch settles to a non-null `styleJson`
exactly when the fetch is not swallowed by its `.catch` — on transport
error, parse failure, or a `null` body it remains at the initial `null`
with no failure state. -/
theorem styleAcquisition_settled_states (o : FetchOutcome) :
    useBarikoiMapStyleSettled o ≠ StyleLoadState.loading ∧
    ((∃ d, useBarikoiMapStyleSettled o = StyleLoadState.ready d) ∨
      (∃ m, useBarikoiMapStyleSettled o = StyleLoadState.failed m)) ∧
    (homeScreenStyleJson o = none ↔ screenFetchSwallowed o = true) := by
  refine ⟨?_, ?_, ?_⟩
  · unfold useBarikoiMapStyleSettled
    cases fetchBarikoiMapStyle o <;> simp
  · unfold useBarikoiMapStyleSettled
    cases h : fetchBarikoiMapStyle o
    · exact Or.inr ⟨_, rfl⟩
    · exact Or.inl ⟨_, rfl⟩
  · cases o with
    | transportError m => simp [homeScreenStyleJson, screenFetchSwallowed]
    | response st body =>
      cases body with
      | error m => simp [homeScreenStyleJson, screenFetchSwallowed]
      | ok data =>
        by_cases hd : data.isNull = true <;>
          simp [homeScreenStyleJson, screenFetchSwallowed, sanitizeStyle, hd]

/-- C5: for every non-success HTTP status, the hook settles to
`Failed("HTTP error! status: <status>")`; the message contains the numeric
status code, and `Ready` is never produced. -/
theorem httpError_surfaces_status (status : ℕ) (body : Except String JsonValue)
    (h : statusOk status = false) :
    useBarikoiMapStyleSettled (FetchOutcome.response status body) =
      StyleLoadState.failed ("HTTP error! status: " ++ toString status) ∧
    (∃ pre post : String,
      "HTTP error! status: " ++ toString status = pre ++ toString status ++ post) ∧
    (∀ d, useBarikoiMapStyleSettled (FetchOutcome.response status body) ≠
      StyleLoadState.ready d) := by
  have h1 : useBarikoiMapStyleSettled (FetchOutcome.response status body) =
      StyleLoadState.failed ("HTTP error! status: " ++ toString status) := by
    unfold useBarikoiMapStyleSettled fetchBarikoiMapStyle
    simp [h]
  refine ⟨h1, ⟨"HTTP error! status: ", "", by simp⟩, fun d => by rw [h1]; simp⟩

/-- C5 witness: at status 401 the settled state is `Failed` with a message
containing `"401"`. -/
theorem httpError_surfaces_status_witness :
    statusOk 401 = false ∧
    useBarikoiMapStyleSettled (FetchOutcome.response 401 (Except.ok (JsonValue.obj []))) =
      StyleLoadState.failed ("HTTP error! status: " ++ toString 401) ∧
    toString (401 : ℕ) = "401" :=
  ⟨by decide,
    (httpError_surfaces_status 401 (Except.ok (JsonValue.obj [])) (by decide)).1,
    by decide⟩

/-- C4 counterexample: a 200 response whose document carries a `sprite` key
with the falsy value `""` resolves to `Ready` of the document with the
`sprite` key still present — `if (data.sprite)` tests truthiness, not
presence, so the key is not removed. -/
theorem sprite_empty_string_not_removed :
    fetchBarikoiMapStyle (FetchOutcome.response 200 (Except.ok
        (JsonValue.obj [("sprite", JsonValue.str ""), ("layers", JsonValue.arr [])]))) =
      Except.ok (JsonValue.obj [("sprite", JsonValue.str ""), ("layers", JsonValue.arr [])]) ∧
    (JsonValue.obj [("sprite", JsonValue.str ""), ("layers", JsonValue.arr [])]).get "sprite" =
      some (JsonValue.str "") := by
  constructor <;> rfl

/-- C4 (amended): for every success status and every parsed document other
than JSON `null`, the operation resolves to `Ready` of the document with
the `sprite` key deleted when its value is truthy and unchanged otherwise;
deletion removes the `sprite` key and preserves every other key's value. -/
theorem sprite_removed_iff_truthy (status : ℕ) (d : JsonValue)
    (hok : statusOk status = true) (hnull : d.isNull = false) :
    fetchBarikoiMapStyle (FetchOutcome.response status (Except.ok d)) =
      Except.ok (if spriteTruthy d then d.deleteKey "sprite" else d) ∧
    (d.deleteKey "sprite").get "sprite" = none ∧
    (∀ k, k ≠ "sprite" → (d.deleteKey "sprite").get k = d.get k) := by
  refine ⟨?_, ?_, ?_⟩
  · simp [fetchBarikoiMapStyle, hok, sanitizeStyle, hnull]
  · cases d <;> first | rfl | exact lookup_filter_self "sprite" _
  · intro k hk
    cases d <;> first | rfl | exact lookup_filter_other "sprite" k hk _

/-- C4 witness: a document with a truthy `sprite` value resolves to `Ready`
of the document with `sprite` deleted and `layers` preserved. -/
theorem sprite_removed_iff_truthy_witness :
    statusOk 200 = true ∧
    (JsonValue.obj [("sprite", JsonValue.str "x"), ("layers", JsonValue.arr [])]).isNull
       = false ∧
    fetchBarikoiMapStyle (FetchOutcome.response 200 (Except.ok
        (JsonValue.obj [("sprite", JsonValue.str "x"), ("layers", JsonValue.arr [])]))) =
      Except.ok (if spriteTruthy
          (JsonValue.obj [("sprite", JsonValue.str "x"), ("layers", JsonValue.arr [])]) then
        (JsonValue.obj [("sprite", JsonValue.str "x"),
          ("layers", JsonValue.arr [])]).deleteKey "sprite"
      else JsonValue.obj [("sprite", JsonValue.str "x"), ("layers", JsonValue.arr [])]) :=
  ⟨rfl, rfl,
    (sprite_removed_iff_truthy 200
      (JsonValue.obj [("sprite", JsonValue.str "x"), ("layers", JsonValue.arr [])])
      rfl rfl).1⟩

/-- C2 counterexample: with `segments = 2` and `radiusKm = 0` — both of
which the claim says must fail with `InvalidArgument` and never yield a
coordinate sequence — the generator returns a 3-point ring: the source
performs no argument validation at all. -/
theorem circle_segments_two_yields_ring :
    (createCirclePolygon ⟨90.366659, 23.823724⟩ 0 2).length = 3 := by
  simp only [createCirclePolygon, List.length_append, List.length_take, List.length_map,
    List.length_range]
  omega

/-- C2 (amended): the generator performs no validation: for every center
(polar latitudes included), every radius (zero and negative included) and
every `segments ≥ 1` (so in particular `segments = 2`), it returns a ring
of length `segments + 1` instead of failing. -/
theorem createCirclePolygon_no_validation (center : Coordinate) (radiusInKm : ℝ)
    (n : ℕ) (h : 1 ≤ n) :
    (createCirclePolygon center radiusInKm n).length = n + 1 :=
  createCirclePolygon_length center radiusInKm n h

/-- C2 witness: a polar center, zero radius and `segments = 2` still yield
a ring of length 3. -/
theorem createCirclePolygon_no_validation_witness :
    1 ≤ 2 ∧ (createCirclePolygon ⟨0, 90⟩ 0 2).length = 2 + 1 :=
  ⟨by norm_num, createCirclePolygon_no_validation ⟨0, 90⟩ 0 2 (by norm_num)⟩

/-- `Math.atan2` is nonnegative on the closed first quadrant. -/
lemma atan2_nonneg (y x : ℝ) (hy : 0 ≤ y) (hx : 0 ≤ x) : 0 ≤ atan2 y x := by
  unfold atan2
  split_ifs with h1 h2 h3 h4 <;>
    first
      | (calc (0 : ℝ) = Real.arctan 0 := Real.arctan_zero.symm
          _ ≤ Real.arctan (y / x) :=
            Real.arctan_strictMono.monotone (div_nonneg hy h1.le))
      | linarith [Real.pi_pos]

/-- `Math.atan2` is strictly positive when `y > 0` and `x ≥ 0`. -/
lemma atan2_pos (y x : ℝ) (hy : 0 < y) (hx : 0 ≤ x) : 0 < atan2 y x := by
  unfold atan2
  split_ifs with h1 h2 h3 <;>
    first
      | (calc (0 : ℝ) = Real.arctan 0 := Real.arctan_zero.symm
          _ < Real.arctan (y / x) := Real.arctan_strictMono (div_pos hy h1))
      | linarith [Real.pi_pos]

/-- `Math.atan2 0 x = 0` for positive `x`. -/
lemma atan2_zero_of_pos (x : ℝ) (hx : 0 < x) : atan2 0 x = 0 := by
  unfold atan2
  rw [if_pos hx, zero_div, Real.arctan_zero]

/-- The haversine intermediate `a` is symmetric in its two coordinates. -/
lemma haversineA_comm (a b : Coordinate) : haversineA a b = haversineA b a := by
  unfold haversineA
  rw [show (a.lat - b.lat) * Real.pi / 180 / 2 =
        -((b.lat - a.lat) * Real.pi / 180 / 2) from by ring,
      show (a.lng - b.lng) * Real.pi / 180 / 2 =
        -((b.lng - a.lng) * Real.pi / 180 / 2) from by ring,
      Real.sin_neg, Real.sin_neg]
  ring

/-- The haversine intermediate `a` vanishes on equal coordinates. -/
lemma haversineA_self (a : Coordinate) : haversineA a a = 0 := by
  unfold haversineA
  simp

/-- The distance between equal coordinates is zero. -/
lemma calculateDistance_self (a : Coordinate) : calculateDistance a a = 0 := by
  unfold calculateDistance
  rw [haversineA_self, Real.sqrt_zero, sub_zero, Real.sqrt_one,
      atan2_zero_of_pos 1 one_pos]
  ring

/-- C6: `calculateDistance` computes exactly the standard haversine formula
with Earth radius 6371 km — `2·6371·atan2(√h, √(1-h))` with
`h = sin²(dLat/2) + cos(radians(a.lat))·cos(radians(b.lat))·sin²(dLng/2)` —
and the result is non-negative. -/
theorem calculateDistance_eq_spec_haversine (a b : Coordinate) :
    calculateDistance a b = specHaversineKm a b ∧ 0 ≤ calculateDistance a b := by
  have hA : haversineA a b =
      Real.sin (radians (b.lat - a.lat) / 2) ^ 2 +
        Real.cos (radians a.lat) * Real.cos (radians b.lat) *
          Real.sin (radians (b.lng - a.lng) / 2) ^ 2 := by
    unfold haversineA radians
    rw [show (b.lat - a.lat) * Real.pi / 180 / 2 =
          (b.lat - a.lat) * (Real.pi / 180) / 2 from by ring,
        show (b.lng - a.lng) * Real.pi / 180 / 2 =
          (b.lng - a.lng) * (Real.pi / 180) / 2 from by ring,
        show a.lat * Real.pi / 180 = a.lat * (Real.pi / 180) from by ring,
        show b.lat * Real.pi / 180 = b.lat * (Real.pi / 180) from by ring]
    ring
  constructor
  · unfold calculateDistance specHaversineKm
    rw [hA]
    ring
  · unfold calculateDistance
    have h := atan2_nonneg (Real.sqrt (haversineA a b))
      (Real.sqrt (1 - haversineA a b)) (Real.sqrt_nonneg _) (Real.sqrt_nonneg _)
    linarith

/-- C7: `calculateDistance` is symmetric — exactly equal on swapped
arguments, hence in particular within the claimed 1e-9 km tolerance. -/
theorem calculateDistance_symm (a b : Coordinate) :
    calculateDistance a b = calculateDistance b a ∧
      |calculateDistance a b - calculateDistance b a| ≤ 1e-9 := by
  have h : calculateDistance a b = calculateDistance b a := by
    unfold calculateDistance
    rw [haversineA_comm]
  refine ⟨h, ?_⟩
  rw [h, sub_self, abs_zero]
  norm_num

/-- `sin x * sin x` is positive for nonzero `x` with `|x| < π`. -/
lemma sin_mul_self_pos (x : ℝ) (hx : x ≠ 0) (hpi : |x| < Real.pi) :
    0 < Real.sin x * Real.sin x := by
  refine mul_self_pos.mpr ?_
  rcases abs_lt.mp hpi with ⟨hl, hr⟩
  rcases lt_or_gt_of_ne hx with h | h
  · have hpos : 0 < Real.sin (-x) :=
      Real.sin_pos_of_pos_of_lt_pi (by linarith) (by linarith)
    rw [Real.sin_neg] at hpos
    exact ne_of_lt (by linarith)
  · exact ne_of_gt (Real.sin_pos_of_pos_of_lt_pi h hr)

/-- The cosine of a latitude strictly between -90 and 90 degrees, converted
to radians the way the source does, is positive. -/
lemma cos_deg_pos (t : ℝ) (h1 : -90 < t) (h2 : t < 90) :
    0 < Real.cos (t * Real.pi / 180) := by
  have hπ := Real.pi_pos
  have ha : 0 < (t + 90) * Real.pi := mul_pos (by linarith) hπ
  have hb : 0 < (90 - t) * Real.pi := mul_pos (by linarith) hπ
  refine Real.cos_pos_of_mem_Ioo ⟨?_, ?_⟩
  · nlinarith
  · nlinarith

/-- The haversine intermediate `a` is strictly positive for distinct
coordinates with non-polar latitudes and longitudes less than a full turn
apart. -/
lemma haversineA_pos (a b : Coordinate)
    (ha1 : -90 < a.lat) (ha2 : a.lat < 90) (hb1 : -90 < b.lat) (hb2 : b.lat < 90)
    (hlng : |a.lng - b.lng| < 360) (hne : a ≠ b) :
    0 < haversineA a b := by
  have hπ := Real.pi_pos
  have hca : 0 < Real.cos (a.lat * Real.pi / 180) := cos_deg_pos _ ha1 ha2
  have hcb : 0 < Real.cos (b.lat * Real.pi / 180) := cos_deg_pos _ hb1 hb2
  unfold haversineA
  by_cases hlat : a.lat = b.lat
  · have hlngne : a.lng ≠ b.lng := by
      intro h
      apply hne
      cases a
      cases b
      simp_all
    have hx : (b.lng - a.lng) * Real.pi / 180 / 2 ≠ 0 := by
      intro h
      have h0 : (b.lng - a.lng) * Real.pi = 0 := by linarith
      rcases mul_eq_zero.mp h0 with h1 | h1
      · exact hlngne (by linarith)
      · exact (ne_of_gt hπ) h1
    have habs : |(b.lng - a.lng) * Real.pi / 180 / 2| < Real.pi := by
      have hd : |b.lng - a.lng| < 360 := by rwa [abs_sub_comm] at hlng
      have he : |(b.lng - a.lng) * Real.pi / 180 / 2| =
          |b.lng - a.lng| * Real.pi / 180 / 2 := by
        rw [abs_div, abs_div, abs_mul, abs_of_pos hπ]
        norm_num
      rw [he]
      nlinarith [mul_pos (show (0:ℝ) < 360 - |b.lng - a.lng| from by linarith) hπ,
        abs_nonneg (b.lng - a.lng)]
    have hs := sin_mul_self_pos _ hx habs
    rw [hlat, sub_self]
    simp only [zero_mul, zero_div, Real.sin_zero]
    nlinarith [mul_pos (mul_pos hcb hcb) hs]
  · have hx : (b.lat - a.lat) * Real.pi / 180 / 2 ≠ 0 := by
      intro h
      have h0 : (b.lat - a.lat) * Real.pi = 0 := by linarith
      rcases mul_eq_zero.mp h0 with h1 | h1
      · exact hlat (by linarith)
      · exact (ne_of_gt hπ) h1
    have habs : |(b.lat - a.lat) * Real.pi / 180 / 2| < Real.pi := by
      have hd : |b.lat - a.lat| < 180 := by
        rw [abs_lt]
        constructor <;> linarith
      have he : |(b.lat - a.lat) * Real.pi / 180 / 2| =
          |b.lat - a.lat| * Real.pi / 180 / 2 := by
        rw [abs_div, abs_div, abs_mul, abs_of_pos hπ]
        norm_num
      rw [he]
      nlinarith [mul_pos (show (0:ℝ) < 180 - |b.lat - a.lat| from by linarith) hπ,
        abs_nonneg (b.lat - a.lat)]
    have hs := sin_mul_self_pos _ hx habs
    nlinarith [hs, mul_nonneg (mul_nonneg hca.le hcb.le)
      (mul_self_nonneg (Real.sin ((b.lng - a.lng) * Real.pi / 180 / 2)))]

/-- The distance is strictly positive whenever the haversine intermediate
is. -/
lemma calculateDistance_pos (a b : Coordinate) (hA : 0 < haversineA a b) :
    0 < calculateDistance a b := by
  unfold calculateDistance
  have h1 : 0 < Real.sqrt (haversineA a b) := Real.sqrt_pos.mpr hA
  have h2 : 0 ≤ Real.sqrt (1 - haversineA a b) := Real.sqrt_nonneg _
  have h3 := atan2_pos _ _ h1 h2
  linarith

/-- C8 counterexample: the two distinct coordinates `(0, 90)` and `(1, 90)`
(both at the north pole, differing in longitude) have distance exactly 0,
so zero distance does not imply equal coordinate pairs. -/
theorem calculateDistance_zero_at_distinct_points :
    calculateDistance ⟨0, 90⟩ ⟨1, 90⟩ = 0 ∧
      (⟨0, 90⟩ : Coordinate) ≠ (⟨1, 90⟩ : Coordinate) := by
  constructor
  · have hA : haversineA ⟨0, 90⟩ ⟨1, 90⟩ = 0 := by
      unfold haversineA
      dsimp only
      rw [show ((90 : ℝ) - 90) * Real.pi / 180 / 2 = 0 from by ring,
          show (90 : ℝ) * Real.pi / 180 = Real.pi / 2 from by ring,
          Real.sin_zero, Real.cos_pi_div_two]
      ring
    unfold calculateDistance
    rw [hA, Real.sqrt_zero, sub_zero, Real.sqrt_one, atan2_zero_of_pos 1 one_pos]
    ring
  · intro h
    have h1 : (0 : ℝ) = 1 := congrArg Coordinate.lng h
    norm_num at h1

/-- C8 (amended): `calculateDistance a a = 0` for every coordinate; and for
coordinates with latitudes strictly between -90 and 90 and longitudes less
than 360 degrees apart, the distance is zero exactly when the two
coordinate pairs are equal. (Without those restrictions the converse fails:
distinct pairs that denote the same point on the sphere — polar points
differing in longitude, or longitudes wrapping ±360 — have distance 0.) -/
theorem calculateDistance_zero_iff (a b : Coordinate)
    (ha1 : -90 < a.lat) (ha2 : a.lat < 90) (hb1 : -90 < b.lat) (hb2 : b.lat < 90)
    (hlng : |a.lng - b.lng| < 360) :
    (calculateDistance a b = 0 ↔ a = b) ∧ calculateDistance a a = 0 := by
  refine ⟨⟨?_, ?_⟩, calculateDistance_self a⟩
  · intro h
    by_contra hne
    exact ne_of_gt
      (calculateDistance_pos a b (haversineA_pos a b ha1 ha2 hb1 hb2 hlng hne)) h
  · intro h
    rw [h]
    exact calculateDistance_self b

/-- C8 witness: at Dhaka's coordinates the distance to itself is 0 and the
zero-iff-equal equivalence holds. -/
theorem calculateDistance_zero_iff_witness :
    (-90 : ℝ) < 23.823724 ∧ (23.823724 : ℝ) < 90 ∧
    |(90.364159 : ℝ) - 90.364159| < 360 ∧
    ((calculateDistance ⟨90.364159, 23.823724⟩ ⟨90.364159, 23.823724⟩ = 0 ↔
      (⟨90.364159, 23.823724⟩ : Coordinate) = ⟨90.364159, 23.823724⟩) ∧
      calculateDistance ⟨90.364159, 23.823724⟩ ⟨90.364159, 23.823724⟩ = 0) :=
  ⟨by norm_num, by norm_num, by norm_num,
    calculateDistance_zero_iff ⟨90.364159, 23.823724⟩ ⟨90.364159, 23.823724⟩
      (by norm_num) (by norm_num) (by norm_num) (by norm_num) (by norm_num)⟩

/-- Each generated (non-closing) ring point equals the reference
algorithm's point. -/
lemma createCirclePolygon_getElem_lt (center : Coordinate) (r : ℝ) (n i : ℕ)
    (hi : i < n) :
    (createCirclePolygon center r n)[i]? = some (specCirclePoint center r n i) := by
  simp only [createCirclePolygon]
  rw [List.getElem?_append, if_pos (by simpa using hi)]
  rw [List.getElem?_map, List.getElem?_range hi]
  simp only [Option.map_some']
  unfold specCirclePoint
  rw [show ((i : ℝ) * 2 * Real.pi) / (n : ℝ) = 2 * Real.pi * (i : ℝ) / (n : ℝ) from by ring]

/-- The closing ring point (index `points`) equals the reference
algorithm's point 0. -/
lemma createCirclePolygon_getElem_last (center : Coordinate) (r : ℝ) (n : ℕ)
    (h : 1 ≤ n) :
    (createCirclePolygon center r n)[n]? = some (specCirclePoint center r n 0) := by
  simp only [createCirclePolygon]
  rw [List.getElem?_append, if_neg (by simp)]
  simp only [List.length_map, List.length_range, Nat.sub_self]
  rw [List.getElem?_take, if_pos (by norm_num : (0 : ℕ) < 1)]
  rw [List.getElem?_map, List.getElem?_range h]
  simp only [Option.map_some']
  unfold specCirclePoint
  rw [show (((0 : ℕ) : ℝ) * 2 * Real.pi) / (n : ℝ) =
        2 * Real.pi * ((0 : ℕ) : ℝ) / (n : ℝ) from by push_cast; ring]

/-- C1: for every center, radius and `segments ≥ 1`, the generated ring has
length `segments + 1`, its `i`-th point (`i < segments`) is exactly the
reference algorithm's point
`(lng + cos(2πi/segments)·r/111.32, lat + sin(2πi/segments)·r/(111.32·cos(radians(lat))))`,
the closing point is the reference point 0, and the first and last elements
are identical. -/
theorem createCirclePolygon_matches_reference (center : Coordinate) (radiusKm : ℝ)
    (n : ℕ) (h : 1 ≤ n) :
    (createCirclePolygon center radiusKm n).length = n + 1 ∧
    (∀ i, i < n → (createCirclePolygon center radiusKm n)[i]? =
      some (specCirclePoint center radiusKm n i)) ∧
    (createCirclePolygon center radiusKm n)[n]? =
      some (specCirclePoint center radiusKm n 0) ∧
    (createCirclePolygon center radiusKm n)[0]? =
      (createCirclePolygon center radiusKm n)[n]? := by
  refine ⟨createCirclePolygon_length center radiusKm n h,
    fun i hi => createCirclePolygon_getElem_lt center radiusKm n i hi,
    createCirclePolygon_getElem_last center radiusKm n h, ?_⟩
  rw [createCirclePolygon_getElem_lt center radiusKm n 0 h,
      createCirclePolygon_getElem_last center radiusKm n h]

/-- C1 witness: a concrete 4-segment ring around the Dhaka-area center has
length 5. -/
theorem createCirclePolygon_matches_reference_witness :
    1 ≤ 4 ∧ (createCirclePolygon ⟨90.366659, 23.823724⟩ 0.3 4).length = 4 + 1 :=
  ⟨by norm_num,
    (createCirclePolygon_matches_reference ⟨90.366659, 23.823724⟩ 0.3 4
      (by norm_num)).1⟩
